import Mathlib

/-!
Verification of the liquidations-report repository against its design
specification.

The development shallowly embeds the Python sources:
* `schedule.py` — the 5-field cron matcher `parse_simple_cron` and the
  30-second polling scheduler loop;
* `data_fetcher.py` — `DuneDataFetcher.execute_sql` (submit / poll / result),
  `DuneDataFetcher.fetch_all_report_data` (per-dataset error absorption) and
  `generate_sample_data`;
* `chart_generator.py` — `generate_all_charts` and the per-chart creators
  with their "no data" placeholder path;
* `pdf_generator.py` / `generate_html_report.py` — the bad-debt branch texts
  of the document stage;
* `web_app.py` — `_run_generation`, the background job pipeline.

External collaborators (the Dune HTTP API, matplotlib, ReportLab, the
filesystem, the random number generator, the wall clock) are modelled as
explicit environments supplying their responses; the embedded functions are
pure and executable.
-/

namespace LiqReport

/-! ## Tabular data model

A pandas `DataFrame` is modelled as a list of rows, each row an association
list from column name to a cell value (numbers and strings are the only cell
kinds the repository stores).  The empty list is the empty table
(`pd.DataFrame()`). -/

inductive Val where
  | num (q : Rat)
  | str (s : String)
deriving Repr, DecidableEq

abbrev Row := List (String × Val)

abbrev Table := List Row

/-- `pandas.Series.get(key, default)` on a row. -/
def rowGet (r : Row) (k : String) (d : Val) : Val :=
  (r.lookup k).getD d

/-- `report_data.get(key, pd.DataFrame())` on a dataset mapping. -/
def dataGet (data : List (String × Table)) (k : String) : Table :=
  (data.lookup k).getD []

/-! ## String helpers

`str.split()`, `str.startswith`, `int(...)` and `str.split(",")` are
re-implemented structurally over the character list so that every embedded
function evaluates by kernel reduction. -/

/-- `str.strip().split()`: splits on runs of whitespace, producing no empty
pieces; `acc` holds the current word reversed. -/
def wordsAux : List Char → List Char → List String
  | [], acc => if acc.isEmpty then [] else [String.mk acc.reverse]
  | c :: cs, acc =>
    if c.isWhitespace then
      if acc.isEmpty then wordsAux cs [] else String.mk acc.reverse :: wordsAux cs []
    else wordsAux cs (c :: acc)

def pySplit (s : String) : List String :=
  wordsAux s.data []

/-- Digit run to a natural number; `none` when empty or a non-digit occurs. -/
def digitsCore : List Char → Option Nat
  | [] => none
  | cs =>
    if cs.all Char.isDigit then
      some (cs.foldl (fun a c => 10 * a + (c.toNat - 48)) 0)
    else none

/-- Python `int(s)` on a whitespace-free token: an optional sign followed by
one or more decimal digits.  (Python also accepts underscore digit
separators; no token of the repository or of the claims uses them.) -/
def pyInt (s : String) : Option Int :=
  match s.data with
  | [] => none
  | c :: cs =>
    if c = '+' then (digitsCore cs).map Int.ofNat
    else if c = '-' then (digitsCore cs).map (fun n => -(n : Int))
    else (digitsCore (c :: cs)).map Int.ofNat

/-- `tok.startswith(pre)`. -/
def pyStartsWith (tok pre : String) : Bool :=
  pre.data.isPrefixOf tok.data

/-- `tok[n:]`. -/
def pyDrop (tok : String) (n : Nat) : String :=
  String.mk (tok.data.drop n)

/-- `"," in tok`. -/
def hasComma (tok : String) : Bool :=
  tok.data.contains ','

/-- `tok.split(",")`: keeps empty pieces, exactly like Python. -/
def splitCommaAux : List Char → List Char → List String
  | [], acc => [String.mk acc.reverse]
  | c :: cs, acc =>
    if c = ',' then String.mk acc.reverse :: splitCommaAux cs []
    else splitCommaAux cs (c :: acc)

def splitComma (tok : String) : List String :=
  splitCommaAux tok.data []

/-- `[int(x) for x in pieces]`: Python evaluates left to right and raises at
the first piece `int` rejects; the error carries that piece. -/
def intList : List String → Except String (List Int)
  | [] => .ok []
  | x :: xs =>
    match pyInt x with
    | none => .error x
    | some n => (intList xs).map (fun ns => n :: ns)

/-! ## Cron matcher (`schedule.py`, `parse_simple_cron`) -/

/-- The exceptions `parse_simple_cron` can raise: the explicit
`ValueError(f"Invalid cron format: ...")` for a wrong field count, the
`ValueError` `int()` raises on a non-integer token, and the
`ZeroDivisionError` of `field_val % 0`. -/
inductive CronError where
  | badFormat (cronStr : String)
  | badInt (tok : String)
  | divByZero
deriving Repr, DecidableEq

/-- A Python `datetime` restricted to the components the matcher reads.
`weekday` is Python's convention: 0 = Monday, …, 6 = Sunday. -/
structure PyTime where
  minute : Nat
  hour : Nat
  day : Nat
  month : Nat
  weekday : Nat
deriving Repr, DecidableEq

/-- `fields = [now.minute, now.hour, now.day, now.month, now.weekday()]`
followed by the remap `fields[4] = (fields[4] + 1) % 7` to the cron
convention 0 = Sunday. -/
def cronFields (t : PyTime) : List Nat :=
  [t.minute, t.hour, t.day, t.month, (t.weekday + 1) % 7]

/-- One iteration of the field loop: `*` matches anything; `*/N` divides
(`% 0` raises); a comma list tests membership; anything else must convert
with `int()` and compares for equality.  `(v : Int) % d == 0` agrees with
Python's modulo on the zero test for every sign of `d`, since both are zero
exactly when `d` divides `v`. -/
def checkField (v : Nat) (tok : String) : Except CronError Bool :=
  if tok = "*" then .ok true
  else if pyStartsWith tok "*/" then
    match pyInt (pyDrop tok 2) with
    | none => .error (.badInt (pyDrop tok 2))
    | some d => if d = 0 then .error .divByZero else .ok ((v : Int) % d == 0)
  else if hasComma tok then
    match intList (splitComma tok) with
    | .error piece => .error (.badInt piece)
    | .ok allowed => .ok (allowed.contains (v : Int))
  else
    match pyInt tok with
    | none => .error (.badInt tok)
    | some n => .ok ((v : Int) == n)

/-- The `for field_val, cron_part in zip(fields, parts)` loop: a failing
field returns `False` at once, so tokens after it are never examined. -/
def matchLoop : List (Nat × String) → Except CronError Bool
  | [] => .ok true
  | (v, tok) :: rest =>
    match checkField v tok with
    | .error e => .error e
    | .ok b => if b then matchLoop rest else .ok false

/-- `parse_simple_cron(cron_str)` evaluated at an explicit time `now`
(`parts = cron_str.strip().split()`). -/
def parse_simple_cron (cronStr : String) (now : PyTime) : Except CronError Bool :=
  if (pySplit cronStr).length ≠ 5 then .error (.badFormat cronStr)
  else matchLoop ((cronFields now).zip (pySplit cronStr))

/-! ## Scheduler loop (`schedule.py`, `main`) -/

/-- The loop's only state: `last_run_minute`, initialised to `-1`; a fire
stores the minute-of-day bucket `hour * 60 + minute`. -/
structure SchedulerState where
  lastRunMinute : Int
deriving Repr, DecidableEq

/-- One wake-up of the 30-second polling loop.  Python short-circuits
`current_minute != last_run_minute and parse_simple_cron(...)`, so the
matcher only runs (and can only raise) when the bucket differs.  Returns
the new state and whether `run_report` was invoked. -/
def schedulerPoll (cron : String) (t : PyTime) (s : SchedulerState) :
    Except CronError (SchedulerState × Bool) :=
  let cur : Int := (t.hour * 60 + t.minute : Nat)
  if cur = s.lastRunMinute then .ok (s, false)
  else
    match parse_simple_cron cron t with
    | .error e => .error e
    | .ok true => .ok (⟨cur⟩, true)
    | .ok false => .ok (s, false)

/-- The scheduler loop run over a finite trace of wall-clock poll instants,
returning the final state and, per poll, whether the pipeline fired. -/
def schedulerRun (cron : String) :
    List PyTime → SchedulerState → Except CronError (SchedulerState × List Bool)
  | [], s => .ok (s, [])
  | t :: ts, s =>
    match schedulerPoll cron t s with
    | .error e => .error e
    | .ok (s', fired) =>
      match schedulerRun cron ts s' with
      | .error e => .error e
      | .ok (s'', rest) => .ok (s'', fired :: rest)

/-! ## Token analysis for the matcher's contract

`tokForm` classifies a field token into the forms the matcher supports,
mirroring `checkField`'s own classification order, and `tokMatch` is the
spec-side matching semantics of a classified token; the contract theorems
compare `parse_simple_cron` against them. -/

inductive TokForm where
  | star
  | step (d : Int)
  | listOf (ns : List Int)
  | exact (n : Int)
deriving Repr, DecidableEq

def tokForm (tok : String) : Option TokForm :=
  if tok = "*" then some .star
  else if pyStartsWith tok "*/" then (pyInt (pyDrop tok 2)).map .step
  else if hasComma tok then
    match intList (splitComma tok) with
    | .error _ => none
    | .ok ns => some (.listOf ns)
  else (pyInt tok).map .exact

def formMatches (v : Nat) : TokForm → Bool
  | .star => true
  | .step d => (v : Int) % d == 0
  | .listOf ns => ns.contains (v : Int)
  | .exact n => (v : Int) == n

/-- A token is well formed when it classifies and, for `*/N`, the divisor is
nonzero (`% 0` raises in the source). -/
def tokWF (tok : String) : Bool :=
  match tokForm tok with
  | some (.step d) => d != 0
  | some _ => true
  | none => false

def tokMatch (v : Nat) (tok : String) : Bool :=
  match tokForm tok with
  | some f => formMatches v f
  | none => false

deriving instance DecidableEq for Except

/-! ## Helper lemmas about the matcher loop -/

theorem matchLoop_cons (v : Nat) (tok : String) (rest : List (Nat × String))
    (b : Bool) (h : checkField v tok = .ok b) :
    matchLoop ((v, tok) :: rest) = if b then matchLoop rest else .ok false := by
  rw [matchLoop, h]

theorem matchLoop_cons_error (v : Nat) (tok : String) (rest : List (Nat × String))
    (e : CronError) (h : checkField v tok = .error e) :
    matchLoop ((v, tok) :: rest) = .error e := by
  rw [matchLoop, h]

theorem checkField_wf (v : Nat) (tok : String) (h : tokWF tok = true) :
    checkField v tok = .ok (tokMatch v tok) := by
  unfold tokWF tokForm at h
  unfold checkField tokMatch tokForm
  split_ifs at h ⊢ with h1 h2 h3
  · rfl
  · cases hp : pyInt (pyDrop tok 2) with
    | none => rw [hp] at h; simp at h
    | some d =>
      rw [hp] at h
      have hd : ¬ d = 0 := by simpa using h
      simp [hd, formMatches]
  · cases hI : intList (splitComma tok) with
    | error piece => rw [hI] at h; simp at h
    | ok ns => simp [formMatches]
  · cases hp : pyInt tok with
    | none => rw [hp] at h; simp at h
    | some n => simp [formMatches]

theorem checkField_ill (v : Nat) (tok : String) (h : tokForm tok = none) :
    ∃ piece, checkField v tok = .error (.badInt piece) := by
  unfold tokForm at h
  unfold checkField
  split_ifs at h ⊢ with h1 h2 h3
  · rw [Option.map_eq_none'] at h
    refine ⟨pyDrop tok 2, ?_⟩
    rw [h]
  · cases hI : intList (splitComma tok) with
    | error piece => exact ⟨piece, rfl⟩
    | ok ns => rw [hI] at h; simp at h
  · rw [Option.map_eq_none'] at h
    refine ⟨tok, ?_⟩
    rw [h]

theorem checkField_no_badFormat (v : Nat) (tok : String) (s : String) :
    checkField v tok ≠ .error (.badFormat s) := by
  unfold checkField
  split_ifs with h1 h2 h3
  · simp
  · cases pyInt (pyDrop tok 2) with
    | none => simp
    | some d => by_cases hd : d = 0 <;> simp [hd]
  · cases intList (splitComma tok) <;> simp
  · cases pyInt tok <;> simp

theorem matchLoop_no_badFormat (l : List (Nat × String)) (s : String) :
    matchLoop l ≠ .error (.badFormat s) := by
  induction l with
  | nil => simp [matchLoop]
  | cons p rest ih =>
    obtain ⟨v, tok⟩ := p
    rw [matchLoop]
    cases hc : checkField v tok with
    | error e =>
      intro hcontra
      have he : e = CronError.badFormat s := by simpa using hcontra
      exact checkField_no_badFormat v tok s (by rw [hc, he])
    | ok b =>
      cases b with
      | false => exact fun hcontra => Except.noConfusion hcontra
      | true => exact ih

theorem matchLoop_wf (l : List (Nat × String)) (h : ∀ p ∈ l, tokWF p.2 = true) :
    matchLoop l = .ok (l.all fun p => tokMatch p.1 p.2) := by
  induction l with
  | nil => rfl
  | cons p rest ih =>
    obtain ⟨v, tok⟩ := p
    rw [matchLoop_cons v tok rest _ (checkField_wf v tok (h _ (List.mem_cons_self _ _)))]
    cases htm : tokMatch v tok with
    | false => simp [htm]
    | true => simp [htm, ih fun q hq => h q (List.mem_cons_of_mem _ hq)]

theorem matchLoop_append (l1 l2 : List (Nat × String))
    (h : ∀ p ∈ l1, checkField p.1 p.2 = .ok true) :
    matchLoop (l1 ++ l2) = matchLoop l2 := by
  induction l1 with
  | nil => rfl
  | cons p rest ih =>
    obtain ⟨v, tok⟩ := p
    rw [List.cons_append, matchLoop_cons v tok _ true (h _ (List.mem_cons_self _ _))]
    simpa using ih fun q hq => h q (List.mem_cons_of_mem _ hq)

/-! ## Claims C4, C5, C10 — the cron matcher -/

/-- Claim C4 (amended): the matcher raises the format error exactly when the
expression does not split into five fields; for a five-field expression whose
tokens are each `*`, `*/N` with nonzero `N`, a comma list of integers, or a
bare integer, the result is True iff every field matches its time component;
and `*/15 * * * *` matches exactly the minutes divisible by 15. -/
theorem cron_matcher_contract :
    (∀ s t, parse_simple_cron s t = .error (.badFormat s) ↔ (pySplit s).length ≠ 5)
  ∧ (∀ s t, (pySplit s).length = 5 → (∀ tok ∈ pySplit s, tokWF tok = true) →
      parse_simple_cron s t
        = .ok (((cronFields t).zip (pySplit s)).all fun p => tokMatch p.1 p.2))
  ∧ (∀ t, parse_simple_cron "*/15 * * * *" t = .ok true ↔ t.minute % 15 = 0) := by
  refine ⟨fun s t => ?_, fun s t hlen hwf => ?_, fun t => ?_⟩
  · unfold parse_simple_cron
    split_ifs with h
    · simp [h]
    · simpa [h] using matchLoop_no_badFormat ((cronFields t).zip (pySplit s)) s
  · unfold parse_simple_cron
    rw [if_neg (by simp [hlen])]
    exact matchLoop_wf _ fun p hp => hwf p.2 (List.of_mem_zip hp).2
  · have h0 : parse_simple_cron "*/15 * * * *" t
        = matchLoop [(t.minute, "*/15"), (t.hour, "*"), (t.day, "*"), (t.month, "*"),
            (((t.weekday + 1) % 7 : Nat), "*")] := rfl
    rw [h0, matchLoop_cons t.minute "*/15" _ ((t.minute : Int) % 15 == 0) rfl]
    have hrest : matchLoop [(t.hour, "*"), (t.day, "*"), (t.month, "*"),
        (((t.weekday + 1) % 7 : Nat), "*")] = .ok true := rfl
    rw [hrest]
    cases hm : ((t.minute : Int) % 15 == 0) with
    | false =>
      have hne : ¬ ((t.minute : Int) % 15 = 0) := by simpa using hm
      simp only [Bool.false_eq_true, if_false]
      constructor
      · intro hcontra; exact Bool.noConfusion (Except.ok.inj hcontra)
      · intro hmin; exact absurd (show (t.minute : Int) % 15 = 0 by omega) hne
    | true =>
      have heq : (t.minute : Int) % 15 = 0 := by simpa using hm
      simp only [if_true]
      exact ⟨fun _ => by omega, fun _ => by trivial⟩

/-- Claim C4 counterexample: "*/0 * * * *" has exactly five fields and is of
the claim's enumerated `*/N` shape, yet the matcher neither raises the format
error nor returns a boolean: `field_val % 0` raises a division-by-zero
error. -/
theorem cron_divzero_counterexample :
    (pySplit "*/0 * * * *").length = 5 ∧
    parse_simple_cron "*/0 * * * *" ⟨0, 0, 1, 1, 0⟩ = .error .divByZero :=
  ⟨rfl, rfl⟩

/-- Claim C4 witness: "*/15 * * * *" at minute 30 matches; at minute 7 it
does not; and a four-field expression raises the format error. -/
theorem cron_matcher_contract_witness :
    parse_simple_cron "*/15 * * * *" ⟨30, 3, 1, 1, 2⟩ = .ok true ∧
    parse_simple_cron "0 9 * *" ⟨0, 9, 1, 1, 0⟩ = .error (.badFormat "0 9 * *") :=
  ⟨(cron_matcher_contract.2.2 ⟨30, 3, 1, 1, 2⟩).mpr (by decide),
   (cron_matcher_contract.1 "0 9 * *" ⟨0, 9, 1, 1, 0⟩).mpr (by decide)⟩

/-- Claim C5: "0 9 * * 1" matches exactly the times with minute 0, hour 9,
on a Monday: the host weekday (Python: 0 = Monday) is remapped by
`(weekday + 1) % 7` to cron's 0 = Sunday convention before comparison, so
native Monday 0 maps to cron value 1. -/
theorem cron_weekday_convention (t : PyTime) (hw : t.weekday < 7) :
    parse_simple_cron "0 9 * * 1" t = .ok true ↔
      (t.minute = 0 ∧ t.hour = 9 ∧ t.weekday = 0) := by
  have h0 : parse_simple_cron "0 9 * * 1" t
      = matchLoop [(t.minute, "0"), (t.hour, "9"), (t.day, "*"), (t.month, "*"),
          (((t.weekday + 1) % 7 : Nat), "1")] := rfl
  have hall : parse_simple_cron "0 9 * * 1" t
      = .ok (List.all [(t.minute, "0"), (t.hour, "9"), (t.day, "*"), (t.month, "*"),
          (((t.weekday + 1) % 7 : Nat), "1")] fun p => tokMatch p.1 p.2) := by
    rw [h0]
    refine matchLoop_wf _ fun p hp => ?_
    fin_cases hp <;> rfl
  rw [hall]
  have e0 : ∀ v : Nat, tokMatch v "0" = ((v : Int) == 0) := fun _ => rfl
  have e9 : ∀ v : Nat, tokMatch v "9" = ((v : Int) == 9) := fun _ => rfl
  have es : ∀ v : Nat, tokMatch v "*" = true := fun _ => rfl
  have e1 : ∀ v : Nat, tokMatch v "1" = ((v : Int) == 1) := fun _ => rfl
  simp only [List.all_cons, List.all_nil, e0, e9, es, e1, Bool.and_true, Bool.true_and,
    Except.ok.injEq, Bool.and_eq_true, beq_iff_eq]
  omega

/-- Claim C5 witness: Monday 2026-10-12 09:00 (Python weekday 0) matches the
default schedule. -/
theorem cron_weekday_convention_witness :
    parse_simple_cron "0 9 * * 1" ⟨0, 9, 12, 10, 0⟩ = .ok true :=
  (cron_weekday_convention ⟨0, 9, 12, 10, 0⟩ (by decide)).mpr ⟨rfl, rfl, rfl⟩

/-- Claim C10 (amended): a five-field expression containing a token of none
of the supported forms raises the integer-conversion value error, provided
every field before that token matches; a mismatching earlier field makes the
loop return False before the bad token is ever parsed. -/
theorem cron_bad_token_error (s : String) (t : PyTime) (pre post : List String)
    (tok : String)
    (hs : pySplit s = pre ++ tok :: post)
    (hlen : pre.length + (post.length + 1) = 5)
    (hbad : tokForm tok = none)
    (hpre : ∀ p ∈ ((cronFields t).take pre.length).zip pre, checkField p.1 p.2 = .ok true) :
    ∃ piece, parse_simple_cron s t = .error (.badInt piece) := by
  have hfl : (cronFields t).length = 5 := rfl
  have hplt : pre.length < 5 := by omega
  obtain ⟨piece, hp⟩ := checkField_ill ((cronFields t).get ⟨pre.length, by omega⟩) tok hbad
  refine ⟨piece, ?_⟩
  have hdrop : (cronFields t).drop pre.length
      = (cronFields t).get ⟨pre.length, by omega⟩ :: (cronFields t).drop (pre.length + 1) := by
    rw [List.drop_eq_getElem_cons (by omega)]
    rfl
  unfold parse_simple_cron
  rw [hs, if_neg (by simp only [List.length_append, List.length_cons, ne_eq]; omega)]
  conv_lhs => rw [← List.take_append_drop pre.length (cronFields t)]
  rw [List.zip_append (by simp only [List.length_take, hfl]; omega),
    matchLoop_append _ _ hpre, hdrop,
    List.zip_cons_cons, matchLoop_cons_error _ _ _ _ hp]

/-- Claim C10 counterexample: "1 1-5 * * *" has five fields and the
unsupported range token "1-5", yet at minute 0 the matcher returns False
without raising: the mismatching first field short-circuits the loop. -/
theorem cron_bad_token_counterexample :
    tokForm "1-5" = none ∧
    (pySplit "1 1-5 * * *").length = 5 ∧
    parse_simple_cron "1 1-5 * * *" ⟨0, 0, 1, 1, 0⟩ = .ok false :=
  ⟨rfl, rfl, rfl⟩

/-- Claim C10 witness: with the matching first field "*", the range token
"1-5" is reached and raises the conversion error. -/
theorem cron_bad_token_error_witness :
    ∃ piece, parse_simple_cron "* 1-5 * * *" ⟨0, 0, 1, 1, 0⟩
      = .error (.badInt piece) :=
  cron_bad_token_error "* 1-5 * * *" ⟨0, 0, 1, 1, 0⟩ ["*"] ["*", "*", "*"] "1-5"
    rfl rfl rfl (by decide)

/-! ## Claim C1 — the scheduler loop -/

/-- Claim C1, evaluated at the failing trace: with the default schedule
"0 9 * * 1", polls inside the first matching minute (Monday 2026-10-12
09:00:00 and 09:00:30) fire the pipeline exactly once; but one week later the
matching minute (Monday 2026-10-19 09:00) fires zero times, because
`last_run_minute` stores the minute-of-day bucket 540 and is never reset, so
the span around the second Monday containing exactly one matching minute
triggers no run at all. -/
theorem scheduler_second_monday_skipped :
    schedulerRun "0 9 * * 1"
      [⟨0, 9, 12, 10, 0⟩, ⟨0, 9, 12, 10, 0⟩, ⟨30, 12, 15, 10, 3⟩,
       ⟨0, 9, 19, 10, 0⟩, ⟨0, 9, 19, 10, 0⟩] ⟨-1⟩
      = .ok (⟨540⟩, [true, false, false, false, false]) := rfl

/-! ## Dune data fetcher (`data_fetcher.py`, class `DuneDataFetcher`)

The HTTP API is an opaque collaborator; a `DuneEnv` records the responses it
would give: the `execution_id` answered by `POST /query/execute/sql` (or an
HTTP error), the `state` field of the i-th `GET /execution/{id}/status`
poll, the rows of `GET /execution/{id}/results`, the `error` field of a
failed status response, and the rows of `GET /query/{id}/results`. -/

inductive FetchError where
  | httpError (msg : String)
  | noExecutionId
  | queryFailed (msg : String)
  | timeout (maxWait : Nat)
deriving Repr, DecidableEq

structure DuneEnv where
  execId : String → Except String String
  pollState : String → Nat → String
  resultRows : String → Table
  errorMsg : String → String
  latestRows : Nat → Except String Table

/-- Iteration count of the `while waited < max_wait` loop, which adds
`poll_interval` to `waited` once per pass before checking the state:
`⌈maxWait / interval⌉` polls for a positive interval.  (A zero interval
would loop forever in the source; no caller passes one.) -/
def numPolls (pollInterval maxWait : Nat) : Nat :=
  (maxWait + pollInterval - 1) / pollInterval

/-- The poll half of `execute_sql`, recursing on the number of remaining
polls: `QUERY_STATE_COMPLETED` returns the result rows,
`QUERY_STATE_FAILED` and `QUERY_STATE_CANCELLED` raise
`RuntimeError(f"Query failed: ...")`, any other state keeps polling, and an
exhausted budget raises `TimeoutError`. -/
def pollLoop (state : Nat → String) (rows : Table) (errMsg : String) (maxWait : Nat) :
    Nat → Nat → Except FetchError Table
  | 0, _ => .error (.timeout maxWait)
  | n + 1, i =>
    if state i = "QUERY_STATE_COMPLETED" then .ok rows
    else if state i = "QUERY_STATE_FAILED" ∨ state i = "QUERY_STATE_CANCELLED" then
      .error (.queryFailed ("Query failed: " ++ errMsg))
    else pollLoop state rows errMsg maxWait n (i + 1)

/-- `DuneDataFetcher.execute_sql(sql, poll_interval, max_wait)`: submit, then
poll; a missing/empty `execution_id` raises `RuntimeError`. -/
def execute_sql (env : DuneEnv) (pollInterval maxWait : Nat) (sql : String) :
    Except FetchError Table :=
  match env.execId sql with
  | .error e => .error (.httpError e)
  | .ok eid =>
    if eid = "" then .error .noExecutionId
    else
      pollLoop (env.pollState eid) (env.resultRows eid) (env.errorMsg eid)
        maxWait (numPolls pollInterval maxWait) 0

/-- `DuneDataFetcher.get_latest_result(query_id)`. -/
def get_latest_result (env : DuneEnv) (queryId : Nat) : Except FetchError Table :=
  match env.latestRows queryId with
  | .error e => .error (.httpError e)
  | .ok rows => .ok rows

/-- `config.QUERY_IDS`, in the source's insertion order. -/
def QUERY_IDS : List (String × Nat) :=
  [("liquidation_stats_24h", 6024591),
   ("bad_debt_stats_24h", 6024779),
   ("unrealized_bad_debt", 6015286),
   ("bad_debt_events_24h", 6657604)]

/-- `config.CUSTOM_QUERIES`: the SQL texts (whitespace flattened; the text
is passed opaquely to the API and never inspected by the pipeline). -/
def CUSTOM_QUERIES : List (String × String) :=
  [("weekly_liquidations_by_chain",
    "SELECT blockchain, SUM(seized_amount_usd) as total_liquidated_usd, COUNT(*) as num_liquidations, COUNT(DISTINCT market_name) as markets_affected FROM dune.morpho.result_morpho_liquidation_events WHERE time >= NOW() - INTERVAL \x277\x27 DAY GROUP BY blockchain ORDER BY total_liquidated_usd DESC"),
   ("daily_liquidations_7d",
    "SELECT DATE_TRUNC(\x27day\x27, time) as day, blockchain, SUM(seized_amount_usd) as total_liquidated_usd, COUNT(*) as num_liquidations FROM dune.morpho.result_morpho_liquidation_events WHERE time >= NOW() - INTERVAL \x277\x27 DAY GROUP BY 1, 2 ORDER BY 1 ASC, 2"),
   ("weekly_bad_debt_by_chain",
    "SELECT blockchain, SUM(bad_debt_amount_usd) as total_bad_debt_usd, COUNT(*) as num_events FROM dune.morpho.result_morpho_liquidation_events WHERE time >= NOW() - INTERVAL \x277\x27 DAY AND bad_debt_amount_usd > 0 GROUP BY blockchain ORDER BY total_bad_debt_usd DESC"),
   ("weekly_liquidation_summary",
    "SELECT SUM(seized_amount_usd) as total_liquidated_usd, SUM(bad_debt_amount_usd) as total_bad_debt_usd, COUNT(*) as total_positions_liquidated, COUNT(DISTINCT market_name) as total_markets, COUNT(DISTINCT blockchain) as total_chains FROM dune.morpho.result_morpho_liquidation_events WHERE time >= NOW() - INTERVAL \x277\x27 DAY")]

def customQuery (name : String) : String :=
  (CUSTOM_QUERIES.lookup name).getD ""

/-- The `try/except` around each dataset fetch: any exception is logged and
replaced with `pd.DataFrame()`. -/
def absorb (r : Except FetchError Table) : Table :=
  match r with
  | .ok t => t
  | .error _ => []

/-- `DuneDataFetcher.fetch_all_report_data`: the four custom SQL datasets in
order, then one `get_latest_result` per configured dashboard query; every
fetch wrapped in the absorbing `try/except`. -/
def fetch_all_report_data (env : DuneEnv) : List (String × Table) :=
  [("weekly_summary", absorb (execute_sql env 2 120 (customQuery "weekly_liquidation_summary"))),
   ("daily_liquidations", absorb (execute_sql env 2 120 (customQuery "daily_liquidations_7d"))),
   ("liquidations_by_chain", absorb (execute_sql env 2 120 (customQuery "weekly_liquidations_by_chain"))),
   ("bad_debt_by_chain", absorb (execute_sql env 2 120 (customQuery "weekly_bad_debt_by_chain")))]
  ++ QUERY_IDS.map (fun p => (p.1, absorb (get_latest_result env p.2)))

/-- The fixed expected dataset keys of the live fetch stage. -/
def expectedDatasetKeys : List String :=
  ["weekly_summary", "daily_liquidations", "liquidations_by_chain", "bad_debt_by_chain"]
    ++ QUERY_IDS.map Prod.fst

/-- The raw (un-absorbed) fetch a given dataset key performs. -/
def datasetFetch (env : DuneEnv) (k : String) : Except FetchError Table :=
  if k = "weekly_summary" then execute_sql env 2 120 (customQuery "weekly_liquidation_summary")
  else if k = "daily_liquidations" then execute_sql env 2 120 (customQuery "daily_liquidations_7d")
  else if k = "liquidations_by_chain" then execute_sql env 2 120 (customQuery "weekly_liquidations_by_chain")
  else if k = "bad_debt_by_chain" then execute_sql env 2 120 (customQuery "weekly_bad_debt_by_chain")
  else
    match QUERY_IDS.lookup k with
    | some qid => get_latest_result env qid
    | none => .ok []

theorem fetch_lookup (env : DuneEnv) (k : String) (hk : k ∈ expectedDatasetKeys) :
    (fetch_all_report_data env).lookup k = some (absorb (datasetFetch env k)) := by
  fin_cases hk <;> rfl

/-! ## Claims C3 and C6 — the fetch stage -/

/-- Claim C3: after the live fetch stage, every expected dataset key (the
four custom-SQL keys and each configured dashboard-query key) is present in
the returned mapping, bound to the fetched table when the fetch succeeded
and to the empty table when it raised; the stage itself never fails. -/
theorem fetch_stage_all_keys_present (env : DuneEnv) (k : String)
    (hk : k ∈ expectedDatasetKeys) :
    (fetch_all_report_data env).map Prod.fst = expectedDatasetKeys ∧
    (fetch_all_report_data env).lookup k = some (absorb (datasetFetch env k)) ∧
    (∀ e, datasetFetch env k = .error e →
      (fetch_all_report_data env).lookup k = some ([] : Table)) := by
  refine ⟨rfl, fetch_lookup env k hk, fun e he => ?_⟩
  rw [fetch_lookup env k hk, he]
  rfl

/-- Claim C3 witness: with an environment in which every HTTP call fails,
the summary key is still present and bound to the empty table. -/
theorem fetch_stage_all_keys_present_witness :
    (fetch_all_report_data
        ⟨fun _ => .error "boom", fun _ _ => "", fun _ => [], fun _ => "",
         fun _ => .error "boom"⟩).lookup "weekly_summary" = some ([] : Table) :=
  (fetch_stage_all_keys_present
      ⟨fun _ => .error "boom", fun _ _ => "", fun _ => [], fun _ => "",
       fun _ => .error "boom"⟩ "weekly_summary" (by decide)).2.2
    (.httpError "boom") rfl

/-- Claim C6: the ad-hoc SQL poll loop returns the result rows on
`QUERY_STATE_COMPLETED`, raises the query error on `QUERY_STATE_FAILED` or
`QUERY_STATE_CANCELLED`, keeps polling on any other state, and raises the
timeout error when no terminal state appears within the poll budget (60
polls for the default 2-second interval and 120-second maximum wait); the
fetch stage absorbs that timeout as the one dataset's empty table. -/
theorem execute_sql_poll_contract :
    (∀ st rows err mw n i, st i = "QUERY_STATE_COMPLETED" →
        pollLoop st rows err mw (n + 1) i = .ok rows)
  ∧ (∀ st rows err mw n i,
        st i = "QUERY_STATE_FAILED" ∨ st i = "QUERY_STATE_CANCELLED" →
        pollLoop st rows err mw (n + 1) i = .error (.queryFailed ("Query failed: " ++ err)))
  ∧ (∀ st rows err mw n i, st i ≠ "QUERY_STATE_COMPLETED" →
        st i ≠ "QUERY_STATE_FAILED" → st i ≠ "QUERY_STATE_CANCELLED" →
        pollLoop st rows err mw (n + 1) i = pollLoop st rows err mw n (i + 1))
  ∧ (∀ st rows err mw n i,
        (∀ j, j < n → st (i + j) ≠ "QUERY_STATE_COMPLETED" ∧
          st (i + j) ≠ "QUERY_STATE_FAILED" ∧ st (i + j) ≠ "QUERY_STATE_CANCELLED") →
        pollLoop st rows err mw n i = .error (.timeout mw))
  ∧ (∀ env sql eid, env.execId sql = .ok eid → eid ≠ "" →
        execute_sql env 2 120 sql
          = pollLoop (env.pollState eid) (env.resultRows eid) (env.errorMsg eid) 120 60 0)
  ∧ (∀ env k, k ∈ expectedDatasetKeys → datasetFetch env k = .error (.timeout 120) →
        (fetch_all_report_data env).lookup k = some ([] : Table)) := by
  have hstep : ∀ st rows err mw n i, st i ≠ "QUERY_STATE_COMPLETED" →
      st i ≠ "QUERY_STATE_FAILED" → st i ≠ "QUERY_STATE_CANCELLED" →
      pollLoop st rows err mw (n + 1) i = pollLoop st rows err mw n (i + 1) := by
    intro st rows err mw n i h1 h2 h3
    rw [pollLoop, if_neg h1, if_neg (by tauto)]
  refine ⟨?_, ?_, hstep, ?_, ?_, ?_⟩
  · intro st rows err mw n i h
    rw [pollLoop, if_pos h]
  · intro st rows err mw n i h
    have h1 : st i ≠ "QUERY_STATE_COMPLETED" := by
      rcases h with h | h <;> rw [h] <;> decide
    rw [pollLoop, if_neg h1, if_pos h]
  · intro st rows err mw n i h
    induction n generalizing i with
    | zero => rfl
    | succ m ih =>
      obtain ⟨h1, h2, h3⟩ := h 0 (Nat.succ_pos m)
      rw [Nat.add_zero] at h1 h2 h3
      rw [hstep st rows err mw m i h1 h2 h3]
      exact ih (i + 1) fun j hj => by
        have := h (j + 1) (by omega)
        rwa [show i + (j + 1) = i + 1 + j by omega] at this
  · intro env sql eid h hne
    unfold execute_sql
    rw [h]
    simp only [if_neg hne]
    rfl
  · intro env k hk he
    rw [fetch_lookup env k hk, he]
    rfl

/-- Claim C6 witness: a status stream that never reaches a terminal state
polls the full budget and times out. -/
theorem execute_sql_poll_contract_witness :
    pollLoop (fun _ => "QUERY_STATE_PENDING") [] "" 120 60 0
      = .error (.timeout 120) :=
  execute_sql_poll_contract.2.2.2.1 (fun _ => "QUERY_STATE_PENDING") [] "" 120 60 0
    (fun j _ => by refine ⟨?_, ?_, ?_⟩ <;> simp)

/-! ## Chart stage (`chart_generator.py`)

matplotlib is opaque; what matters is which image is written at which path,
so each `create_*` function returns the output path it both saves to and
returns, paired with a description of the figure drawn there. -/

inductive ChartImage where
  | noData (title : String)
  | kpiCards (metrics : Row)
  | dailyStacked (df : Table)
  | chainBars (df : Table)
  | badDebtOverview (badDebt unrealized : Table)
deriving Repr, DecidableEq

/-- `_create_no_data_chart(title, output_path)` then `return output_path`. -/
def create_daily_liquidation_chart (df : Table) (path : String) : String × ChartImage :=
  if df.isEmpty then (path, .noData "Daily Liquidations (7d)")
  else (path, .dailyStacked df)

def create_liquidation_by_chain_chart (df : Table) (path : String) : String × ChartImage :=
  if df.isEmpty then (path, .noData "Liquidations by Chain")
  else (path, .chainBars df)

/-- Draws in every case (zero and nonzero branches are internal to the
figure); never raises, never skips the file. -/
def create_bad_debt_summary_chart (badDebt unrealized : Table) (path : String) :
    String × ChartImage :=
  (path, .badDebtOverview badDebt unrealized)

def create_kpi_card_image (metrics : Row) (path : String) : String × ChartImage :=
  (path, .kpiCards metrics)

/-- The fallback metrics dict when `weekly_summary` is empty. -/
def defaultMetrics : Row :=
  [("total_liquidated_usd", .num 0), ("total_bad_debt_usd", .num 0),
   ("total_positions_liquidated", .num 0), ("total_markets", .num 0),
   ("total_chains", .num 0)]

/-- `os.path.join(output_dir, name)` for a directory without a trailing
separator, the only shape the callers pass. -/
def pathJoin (dir name : String) : String :=
  dir ++ "/" ++ name

/-- `generate_all_charts(report_data, output_dir)`: the chart-key → path
mapping it returns, paired with the ledger of files written (path → figure
drawn there). -/
def generate_all_charts (data : List (String × Table)) (outputDir : String) :
    List (String × String) × List (String × ChartImage) :=
  let summary := dataGet data "weekly_summary"
  let metrics := match summary with
    | [] => defaultMetrics
    | r :: _ => r
  let kpi := create_kpi_card_image metrics (pathJoin outputDir "chart_kpi_cards.png")
  let daily := create_daily_liquidation_chart (dataGet data "daily_liquidations")
    (pathJoin outputDir "chart_daily_liquidations.png")
  let byChain := create_liquidation_by_chain_chart (dataGet data "liquidations_by_chain")
    (pathJoin outputDir "chart_liq_by_chain.png")
  let badDebt := create_bad_debt_summary_chart (dataGet data "bad_debt_by_chain")
    (dataGet data "unrealized_bad_debt") (pathJoin outputDir "chart_bad_debt.png")
  ([("kpi", kpi.1), ("daily_liquidations", daily.1), ("liq_by_chain", byChain.1),
    ("bad_debt", badDebt.1)],
   [(kpi.1, kpi.2), (daily.1, daily.2), (byChain.1, byChain.2), (badDebt.1, badDebt.2)])

/-- The chart keys the document template (`pdf_generator.generate_report`)
embeds: `charts["kpi"]`, `charts["daily_liquidations"]`,
`charts["liq_by_chain"]`, `charts["bad_debt"]`. -/
def documentChartKeys : List String :=
  ["kpi", "daily_liquidations", "liq_by_chain", "bad_debt"]

/-! ## Number formatting (`_format_usd` of `pdf_generator.py` and
`generate_html_report.py`, defined identically in both modules)

Digit rendering re-implemented structurally; `roundHalfEven` matches
Python's round-half-to-even format rounding on exact values. -/

def natDigitsAux : Nat → Nat → List Char → List Char
  | 0, _, acc => acc
  | fuel + 1, n, acc =>
    if n < 10 then Char.ofNat (48 + n) :: acc
    else natDigitsAux fuel (n / 10) (Char.ofNat (48 + n % 10) :: acc)

def natStr (n : Nat) : String :=
  String.mk (natDigitsAux (n + 1) n [])

/-- Thousands separators, as in Python's `{:,}` formats. -/
def commasAux : List Char → List Char
  | [] => []
  | c :: cs =>
    if cs.length ≠ 0 ∧ cs.length % 3 = 0 then c :: ',' :: commasAux cs
    else c :: commasAux cs

def natStrCommas (n : Nat) : String :=
  String.mk (commasAux (natDigitsAux (n + 1) n []))

def roundHalfEven (q : Rat) : Int :=
  let f := q.floor
  let frac := q - (f : Rat)
  if frac < 1 / 2 then f
  else if 1 / 2 < frac then f + 1
  else if f % 2 = 0 then f else f + 1

def padZeros (s : String) (d : Nat) : String :=
  String.mk (List.replicate (d - s.data.length) '0') ++ s

/-- `f"{q:.df}"` / `f"{q:,.df}"` on the nonnegative amounts the reports
hold. -/
def fmtFixed (q : Rat) (d : Nat) (commas : Bool) : String :=
  let scaled := (roundHalfEven (q * ((10 : Rat) ^ d))).toNat
  let ip := scaled / 10 ^ d
  let fp := scaled % 10 ^ d
  let ipStr := if commas then natStrCommas ip else natStr ip
  if d = 0 then ipStr else ipStr ++ "." ++ padZeros (natStr fp) d

/-- `_format_usd(value)`: a preformatted string passes through; a number is
scaled to B/M/K or rendered with cents. -/
def _format_usd (v : Val) : String :=
  match v with
  | .str s => s
  | .num q =>
    if q ≥ 1000000000 then "$" ++ fmtFixed (q / 1000000000) 2 false ++ "B"
    else if q ≥ 1000000 then "$" ++ fmtFixed (q / 1000000) 1 false ++ "M"
    else if q ≥ 1000 then "$" ++ fmtFixed (q / 1000) 1 false ++ "K"
    else "$" ++ fmtFixed q 2 true

/-! ## Document stage (`pdf_generator.generate_report` and
`generate_html_report.generate_html`): the bad-debt branches -/

/-- Both generators read `weekly_summary`; an empty table yields
`bad_debt = 0`, otherwise `bad_debt = row0.get("total_bad_debt_usd", 0)`. -/
def extract_bad_debt (data : List (String × Table)) : Val :=
  match dataGet data "weekly_summary" with
  | [] => .num 0
  | s :: _ => rowGet s "total_bad_debt_usd" (.num 0)

/-- Python's `bad_debt == 0`: true exactly for the number zero (a string
cell never equals `0`). -/
def pyEqZero (v : Val) : Bool :=
  match v with
  | .num q => q == 0
  | .str _ => false

/-- The TLDR fragment of `generate_report` (colors `COLORS["green"][1:]` =
`3FB950` and `COLORS["red"][1:]` = `F85149`). -/
def pdf_tldr_bad_debt_text (bd : Val) : String :=
  if pyEqZero bd then "<font color=\"#3FB950\">with zero realized bad debt</font>"
  else "<font color=\"#F85149\">with " ++ _format_usd bd ++ " in realized bad debt</font>"

/-- The Bad Debt Overview paragraph of `generate_report`. -/
def pdf_bad_debt_section_text (bd : Val) : String :=
  if pyEqZero bd then
    "No realized bad debt events occurred during the past 7 days, confirming the effectiveness of Morpho’s liquidation mechanisms and the prudent risk parameters set by curators across the network."
  else
    "A total of " ++ _format_usd bd ++ " in realized bad debt was recorded. See the breakdown below for details."

/-- The TLDR fragment of `generate_html` (`bad_debt_text`). -/
def html_tldr_bad_debt_text (bd : Val) : String :=
  if pyEqZero bd then "with zero realized bad debt"
  else "with " ++ _format_usd bd ++ " in realized bad debt"

/-- The Bad Debt section paragraph of `generate_html`
(`bad_debt_section_text`, the same wording as the PDF's). -/
def html_bad_debt_section_text (bd : Val) : String :=
  if pyEqZero bd then
    "No realized bad debt events occurred during the past 7 days, confirming the effectiveness of Morpho’s liquidation mechanisms and the prudent risk parameters set by curators across the network."
  else
    "A total of " ++ _format_usd bd ++ " in realized bad debt was recorded. See the breakdown below for details."

structure BadDebtTexts where
  pdfTldr : String
  pdfSection : String
  htmlTldr : String
  htmlSection : String
deriving Repr, DecidableEq

/-- The four bad-debt-dependent fragments the document stage renders from a
dataset mapping. -/
def documentBadDebtTexts (data : List (String × Table)) : BadDebtTexts :=
  let bd := extract_bad_debt data
  ⟨pdf_tldr_bad_debt_text bd, pdf_bad_debt_section_text bd,
   html_tldr_bad_debt_text bd, html_bad_debt_section_text bd⟩

/-! ## Sample data source (`data_fetcher.generate_sample_data`) -/

/-- The opaque collaborators of the sample generator: `random.uniform` and
`random.randint` draws (indexed by call, carrying the requested bounds) and
the formatted `(now - timedelta(days=k)).strftime(...)` day labels. -/
structure SampleEnv where
  uniform : Nat → Rat → Rat → Rat
  randint : Nat → Nat → Nat → Nat
  dayLabel : Nat → String

def sampleChains : List String :=
  ["ethereum", "base", "polygon", "arbitrum", "optimism", "hyperevm"]

/-- The 7-day × 6-chain daily rows; ethereum and base draw from the larger
range. -/
def sampleDailyRows (env : SampleEnv) : Table :=
  ((List.range 7).map fun i =>
    sampleChains.enum.map fun cj =>
      let idx := i * 6 + cj.1
      let amount :=
        if cj.2 = "ethereum" ∨ cj.2 = "base" then env.uniform idx 30000 400000
        else env.uniform idx 5000 80000
      [("day", Val.str (env.dayLabel (6 - i))),
       ("blockchain", Val.str cj.2),
       ("total_liquidated_usd", Val.num amount),
       ("num_liquidations", Val.num (env.randint idx 10 200))]).flatten

def rowRat (r : Row) (k : String) : Rat :=
  match r.lookup k with
  | some (.num q) => q
  | _ => 0

/-- Descending insertion sort standing in for
`sort_values("total_liquidated_usd", ascending=False)`; only the ordering by
the key matters downstream. -/
def insertDescBy (key : Row → Rat) (r : Row) : Table → Table
  | [] => [r]
  | x :: xs => if key x ≤ key r then r :: x :: xs else x :: insertDescBy key r xs

def sortDescBy (key : Row → Rat) : Table → Table
  | [] => []
  | r :: rs => insertDescBy key r (sortDescBy key rs)

/-- The per-chain weekly rows (RNG call indices continue after the 42 daily
draws; the stream is opaque, only distinctness of calls is kept). -/
def sampleChainRows (env : SampleEnv) : Table :=
  sampleChains.enum.map fun cj =>
    let total :=
      if cj.2 = "ethereum" ∨ cj.2 = "base" then env.uniform (42 + cj.1) 100000 1200000
      else env.uniform (42 + cj.1) 10000 200000
    [("blockchain", Val.str cj.2),
     ("total_liquidated_usd", Val.num total),
     ("num_liquidations", Val.num (env.randint (42 + 2 * cj.1) 50 600)),
     ("markets_affected", Val.num (env.randint (43 + 2 * cj.1) 5 40))]

/-- `generate_sample_data()`: exactly eight datasets, in insertion order. -/
def generate_sample_data (env : SampleEnv) : List (String × Table) :=
  [("weekly_summary",
     [[("total_liquidated_usd", Val.num (2847321.45 : Rat)),
       ("total_bad_debt_usd", Val.num 0),
       ("total_positions_liquidated", Val.num 1247),
       ("total_markets", Val.num 89),
       ("total_chains", Val.num 11)]]),
   ("daily_liquidations", sampleDailyRows env),
   ("liquidations_by_chain",
     sortDescBy (fun r => rowRat r "total_liquidated_usd") (sampleChainRows env)),
   ("bad_debt_by_chain", []),
   ("liquidation_stats_24h",
     [[("total_liquidated", Val.num 60173),
       ("positions_liquidated", Val.num 285),
       ("markets_liquidated", Val.num 18),
       ("chains_liquidated", Val.num 6)]]),
   ("bad_debt_stats_24h",
     [[("total_bad_debt_amount", Val.num 0),
       ("markets_with_bad_debt", Val.num 0),
       ("chains_with_bad_debt", Val.num 0)]]),
   ("unrealized_bad_debt",
     [[("market", Val.str "deUSD/USDC(86.0%)"), ("chain", Val.str "ethereum"),
       ("unrealized_bad_debt", Val.num (5762.19 : Rat)), ("total_supply", Val.num (10004.95 : Rat))],
      [("market", Val.str "UNKNOWN/lvlUSD(91.5%)"), ("chain", Val.str "ethereum"),
       ("unrealized_bad_debt", Val.num (5261.65 : Rat)), ("total_supply", Val.num (5267.03 : Rat))],
      [("market", Val.str "wbCOIN/USDC(86.0%)"), ("chain", Val.str "base"),
       ("unrealized_bad_debt", Val.num (3647.55 : Rat)), ("total_supply", Val.num (21853.78 : Rat))]]),
   ("bad_debt_events_24h", [])]

/-! ## Web job pipeline (`web_app._run_generation`) -/

inductive JobError where
  | credentialMissing
  | missingKey (k : String)
  | writeFailed (path : String)
deriving Repr, DecidableEq

inductive JobOutcome where
  | done (filename : String)
  | error (e : JobError)
deriving Repr, DecidableEq

/-- Modelled from the spec: the vault-tracking configuration
(`config.BLUECHIP_VAULTS` / `LONGTAIL_VAULTS` / `ALL_TRACKED_VAULTS`)
imported at the top of `_run_generation` is not among the repository's
files; spec §3 gives `selected_vaults: set of VaultId` filtered against the
tracked vaults.  The tracked list is carried abstractly in the web
environment, and this is the list comprehension filtering it. -/
def activeVaults (tracked selected : List String) : List String :=
  tracked.filter fun v => selected.contains v

/-- The collaborators of one background job: the tracked-vault config, the
Dune API, the RNG behind sample mode, `os.environ["DUNE_API_KEY"]`, the
timestamp used in the output filename, and whether writing the PDF
succeeds. -/
structure WebEnv where
  trackedVaults : List String
  dune : DuneEnv
  sample : SampleEnv
  envApiKey : String
  dateStr : String
  writeOk : Bool

/-- `DuneDataFetcher.__init__` credential resolution as `_run_generation`
reaches it: the form's key if nonempty (the source also exports it to the
environment), else `DUNE_API_KEY`; an empty result raises `ValueError`. -/
def effectiveApiKey (w : WebEnv) (apiKey : String) : String :=
  if apiKey ≠ "" then apiKey else w.envApiKey

def REPORTS_DIR : String := "output"

/-- Steps 2–3 of `_run_generation`: charts, then the PDF at
`output/morpho_risk_report_{date}.pdf`; an `OSError` while writing is caught
by the surrounding `except` and becomes the job's terminal error. -/
def finishRun (w : WebEnv) (data : List (String × Table)) : JobOutcome :=
  let filename := "morpho_risk_report_" ++ w.dateStr ++ ".pdf"
  let path := pathJoin REPORTS_DIR filename
  let _charts := generate_all_charts data REPORTS_DIR
  if w.writeOk then .done filename else .error (.writeFailed path)

/-- `_run_generation(job_id, use_sample, api_key, selected_vaults)` minus
the job-table bookkeeping: the outcome recorded for the job.  In sample mode
the source filters `report_data["vault_liquidity"]` to the selected vaults;
the subscript raises `KeyError` whenever the mapping lacks the key (the
`some` branch is dead against this repository's `generate_sample_data`). -/
def _run_generation (w : WebEnv) (useSample : Bool) (apiKey : String)
    (selected : List String) : JobOutcome :=
  let _active := activeVaults w.trackedVaults selected
  if useSample then
    let data := generate_sample_data w.sample
    match data.lookup "vault_liquidity" with
    | none => .error (.missingKey "vault_liquidity")
    | some vl => finishRun w (data ++ [("vault_liquidity", vl)])
  else
    if effectiveApiKey w apiKey = "" then .error .credentialMissing
    else finishRun w (fetch_all_report_data w.dune)

/-! ## Claim C7 — the chart stage -/

/-- Claim C7: for every chart key the document template expects, the chart
stage returns a path and writes a file there, whatever the input data; and
when `liquidations_by_chain` is empty the stage writes the fixed "no data
available" placeholder at the returned path instead of raising or omitting
the file. -/
theorem chart_stage_always_writes (data : List (String × Table)) (outDir : String)
    (k : String) (hk : k ∈ documentChartKeys) :
    (∃ p img, (generate_all_charts data outDir).1.lookup k = some p ∧
        (p, img) ∈ (generate_all_charts data outDir).2) ∧
    (k = "liq_by_chain" → dataGet data "liquidations_by_chain" = [] →
        (generate_all_charts data outDir).1.lookup k
            = some (pathJoin outDir "chart_liq_by_chain.png") ∧
        (pathJoin outDir "chart_liq_by_chain.png", ChartImage.noData "Liquidations by Chain")
            ∈ (generate_all_charts data outDir).2) := by
  fin_cases hk
  · exact ⟨⟨_, _, rfl, List.mem_cons_self _ _⟩, fun h => by simp at h⟩
  · exact ⟨⟨_, _, rfl, List.mem_cons_of_mem _ (List.mem_cons_self _ _)⟩,
      fun h => by simp at h⟩
  · refine ⟨⟨_, _, rfl,
      List.mem_cons_of_mem _ (List.mem_cons_of_mem _ (List.mem_cons_self _ _))⟩,
      fun _ hempty => ?_⟩
    unfold generate_all_charts
    simp only [hempty, create_liquidation_by_chain_chart, List.isEmpty_nil, if_true]
    exact ⟨rfl,
      List.mem_cons_of_mem _ (List.mem_cons_of_mem _ (List.mem_cons_self _ _))⟩
  · exact ⟨⟨_, _, rfl, List.mem_cons_of_mem _ (List.mem_cons_of_mem _
      (List.mem_cons_of_mem _ (List.mem_cons_self _ _)))⟩, fun h => by simp at h⟩

/-- Claim C7 witness: on an entirely empty dataset mapping, the chain chart
key maps to its path and the placeholder is what was written there. -/
theorem chart_stage_always_writes_witness :
    (generate_all_charts [] "out").1.lookup "liq_by_chain"
        = some (pathJoin "out" "chart_liq_by_chain.png") ∧
    (pathJoin "out" "chart_liq_by_chain.png", ChartImage.noData "Liquidations by Chain")
        ∈ (generate_all_charts [] "out").2 :=
  (chart_stage_always_writes [] "out" "liq_by_chain" (by decide)).2 rfl rfl

/-! ## Claim C8 — the document stage's bad-debt branches -/

/-- Claim C8: whenever `total_bad_debt_usd` equals 0 — in particular
whenever `weekly_summary` is empty, which also yields 0 — both document
generators render the zero-realized-bad-debt branch in the TLDR line and in
the Bad Debt Overview section, and they render the nonzero-amount branch
exactly when the extracted value is nonzero. -/
theorem document_bad_debt_branches (data : List (String × Table)) :
    (dataGet data "weekly_summary" = [] → pyEqZero (extract_bad_debt data) = true)
  ∧ (pyEqZero (extract_bad_debt data) = true →
      documentBadDebtTexts data =
        ⟨"<font color=\"#3FB950\">with zero realized bad debt</font>",
         "No realized bad debt events occurred during the past 7 days, confirming the effectiveness of Morpho’s liquidation mechanisms and the prudent risk parameters set by curators across the network.",
         "with zero realized bad debt",
         "No realized bad debt events occurred during the past 7 days, confirming the effectiveness of Morpho’s liquidation mechanisms and the prudent risk parameters set by curators across the network."⟩)
  ∧ (pyEqZero (extract_bad_debt data) = false →
      documentBadDebtTexts data =
        ⟨"<font color=\"#F85149\">with " ++ _format_usd (extract_bad_debt data)
            ++ " in realized bad debt</font>",
         "A total of " ++ _format_usd (extract_bad_debt data)
            ++ " in realized bad debt was recorded. See the breakdown below for details.",
         "with " ++ _format_usd (extract_bad_debt data) ++ " in realized bad debt",
         "A total of " ++ _format_usd (extract_bad_debt data)
            ++ " in realized bad debt was recorded. See the breakdown below for details."⟩) := by
  refine ⟨fun h => ?_, fun h => ?_, fun h => ?_⟩
  · unfold extract_bad_debt
    rw [h]
    rfl
  · unfold documentBadDebtTexts pdf_tldr_bad_debt_text pdf_bad_debt_section_text
      html_tldr_bad_debt_text html_bad_debt_section_text
    simp [h]
  · unfold documentBadDebtTexts pdf_tldr_bad_debt_text pdf_bad_debt_section_text
      html_tldr_bad_debt_text html_bad_debt_section_text
    simp [h]

/-- Claim C8 witness: a summary row with a zero bad-debt figure renders the
four zero-branch texts. -/
theorem document_bad_debt_branches_witness :
    documentBadDebtTexts [("weekly_summary", [[("total_bad_debt_usd", Val.num 0)]])] =
      ⟨"<font color=\"#3FB950\">with zero realized bad debt</font>",
       "No realized bad debt events occurred during the past 7 days, confirming the effectiveness of Morpho’s liquidation mechanisms and the prudent risk parameters set by curators across the network.",
       "with zero realized bad debt",
       "No realized bad debt events occurred during the past 7 days, confirming the effectiveness of Morpho’s liquidation mechanisms and the prudent risk parameters set by curators across the network."⟩ :=
  (document_bad_debt_branches
    [("weekly_summary", [[("total_bad_debt_usd", Val.num 0)]])]).2.1 rfl

/-! ## Claims C9 and C2 — the sample source and the web job pipeline -/

/-- Claim C9: the Sample source returns exactly the eight dataset keys, in
insertion order; `vault_liquidity` is never among them, so the web job
runner's `report_data["vault_liquidity"]` subscript in sample mode fails
with the missing-key error. -/
theorem sample_data_exact_keys (env : SampleEnv) (w : WebEnv) (apiKey : String)
    (selected : List String) :
    (generate_sample_data env).map Prod.fst
      = ["weekly_summary", "daily_liquidations", "liquidations_by_chain",
         "bad_debt_by_chain", "liquidation_stats_24h", "bad_debt_stats_24h",
         "unrealized_bad_debt", "bad_debt_events_24h"]
  ∧ (generate_sample_data env).lookup "vault_liquidity" = none
  ∧ _run_generation w true apiKey selected = .error (.missingKey "vault_liquidity") :=
  ⟨rfl, rfl, rfl⟩

/-- Claim C2 (amended): in Live mode the two claimed fatal conditions are
exact — a missing credential fails before any fetch, a write failure fails
the save, and otherwise the run completes with an artifact whatever the
per-dataset fetch outcomes; Sample mode, however, always terminates with the
`vault_liquidity` missing-key error, a third fatal condition. -/
theorem run_generation_failure_modes (w : WebEnv) (useSample : Bool)
    (apiKey : String) (selected : List String) :
    (useSample = false → effectiveApiKey w apiKey ≠ "" → w.writeOk = true →
        _run_generation w useSample apiKey selected
          = .done ("morpho_risk_report_" ++ w.dateStr ++ ".pdf"))
  ∧ (useSample = false → effectiveApiKey w apiKey = "" →
        _run_generation w useSample apiKey selected = .error .credentialMissing)
  ∧ (useSample = false → effectiveApiKey w apiKey ≠ "" → w.writeOk = false →
        _run_generation w useSample apiKey selected
          = .error (.writeFailed
              (pathJoin REPORTS_DIR ("morpho_risk_report_" ++ w.dateStr ++ ".pdf"))))
  ∧ (useSample = true →
        _run_generation w useSample apiKey selected
          = .error (.missingKey "vault_liquidity"))
  ∧ (∀ e, _run_generation w useSample apiKey selected = .error e →
        e = .credentialMissing ∨ (∃ p, e = .writeFailed p)
          ∨ e = .missingKey "vault_liquidity") := by
  refine ⟨fun hs hk hw => ?_, fun hs hk => ?_, fun hs hk hw => ?_, fun hs => ?_,
    fun e he => ?_⟩
  · subst hs
    unfold _run_generation finishRun
    simp [hk, hw]
  · subst hs
    unfold _run_generation
    simp [hk]
  · subst hs
    unfold _run_generation finishRun
    simp [hk, hw]
  · subst hs
    rfl
  · cases useSample with
    | true =>
      have h2 : _run_generation w true apiKey selected
          = .error (.missingKey "vault_liquidity") := rfl
      rw [h2] at he
      exact Or.inr (Or.inr (JobOutcome.error.inj he).symm)
    | false =>
      unfold _run_generation finishRun at he
      by_cases hk : effectiveApiKey w apiKey = ""
      · simp [hk] at he
        exact Or.inl he.symm
      · by_cases hw : w.writeOk
        · simp [hk, hw] at he
        · simp [hk, hw] at he
          exact Or.inr (Or.inl ⟨_, he.symm⟩)

/-- A concrete web environment for the pipeline claims: one tracked vault, a
credential in the environment, a working filesystem, the live API entirely
down, a trivial RNG. -/
def sampleWebEnv : WebEnv :=
  ⟨["Vault One"],
   ⟨fun _ => .error "api down", fun _ _ => "", fun _ => [], fun _ => "",
    fun _ => .error "api down"⟩,
   ⟨fun _ _ _ => 0, fun _ _ _ => 0, fun _ => "2026-10-05 00:00:00"⟩,
   "key123", "2026-10-12_0900", true⟩

/-- Claim C2 counterexample: a Sample run with a working filesystem — so
neither of the two fatal conditions the claim allows can apply — still
terminates with an error rather than an artifact: the missing-key failure
on `vault_liquidity`. -/
theorem run_generation_sample_counterexample :
    sampleWebEnv.writeOk = true ∧
    _run_generation sampleWebEnv true "" ["Vault One"]
      = .error (.missingKey "vault_liquidity") ∧
    JobError.missingKey "vault_liquidity" ≠ .credentialMissing ∧
    (∀ p, JobError.missingKey "vault_liquidity" ≠ .writeFailed p) :=
  ⟨rfl, rfl, fun h => JobError.noConfusion h, fun _ h => JobError.noConfusion h⟩

/-- Claim C2 witness: a Live run against a fully failing API still completes
with the artifact — every fetch error was absorbed. -/
theorem run_generation_failure_modes_witness :
    _run_generation sampleWebEnv false "" ["Vault One"]
      = .done ("morpho_risk_report_" ++ sampleWebEnv.dateStr ++ ".pdf") :=
  (run_generation_failure_modes sampleWebEnv false "" ["Vault One"]).1 rfl
    (by decide) rfl

end LiqReport
